import Mathlib

/-!
# Verification of the Kubernetes remediation engine

A shallow embedding of the remediation engine found in
`src/remediation/agent.py`, `src/remediation/metrics.py` and
`src/remediation/kubernetes_client.py`, together with theorems settling the
specification claims about it.

Modelling conventions:

* Python `float` values are embedded as `ℚ` (all quantities in the engine are
  exact decimals; no claim in scope depends on binary rounding).
* Python dictionaries with a known key set are embedded as structures; a key
  that may be absent is an `Option` field, with `none` meaning "key absent".
  Subscript access `d["k"]` on an absent key raises `KeyError`, whose
  `str()` is the quoted key name; this is `dictGet` below, returning
  `Except String`.
* `datetime.now().isoformat()` is nondeterministic input; it is threaded as an
  explicit `ts : String` parameter into each function that calls it.
* The agent is embedded in `demo_mode = True` (the default used by the API
  server); the non-demo branches of `KubernetesClient` talk to a live cluster
  and are outside the embedding.  In demo mode every client call returns the
  literal success dictionary written in the source.
* Exceptions are `Except.error` carrying `str(e)`; Python state mutation that
  happened before an exception is kept by returning the updated state next to
  the `Except` value.
-/

/-- The `str()` of a Python `bool`, as used for the `success` metric label. -/
def boolStr (b : Bool) : String := if b then "True" else "False"

/-- The `str()` of a `KeyError` for key `k`: the key surrounded by single quotes. -/
def keyErr (k : String) : String := "\x27" ++ k ++ "\x27"

/-- Subscript access `d["k"]` on an optional field: raises `KeyError` when the
key is absent. -/
def dictGet {α : Type} (v : Option α) (key : String) : Except String α :=
  match v with
  | some x => Except.ok x
  | none => Except.error (keyErr key)

/-- Increment the counter stored under `k` in an association list (a
`prometheus_client.Counter`'s label-value map); an absent key starts at 0. -/
def incKey {κ : Type} [DecidableEq κ] : List (κ × ℕ) → κ → List (κ × ℕ)
  | [], k => [(k, 1)]
  | (k', v) :: rest, k =>
    if k' = k then (k', v + 1) :: rest else (k', v) :: incKey rest k

/-- Add `q` to the rational accumulator stored under `k` (a `Histogram`'s
per-label `_sum`); an absent key starts at 0. -/
def addKey {κ : Type} [DecidableEq κ] : List (κ × ℚ) → κ → ℚ → List (κ × ℚ)
  | [], k, q => [(k, q)]
  | (k', v) :: rest, k, q =>
    if k' = k then (k', v + q) :: rest else (k', v) :: addKey rest k q

/-- Overwrite the value stored under `k` (a `Gauge.set`). -/
def setKey {κ : Type} [DecidableEq κ] : List (κ × ℚ) → κ → ℚ → List (κ × ℚ)
  | [], k, q => [(k, q)]
  | (k', v) :: rest, k, q =>
    if k' = k then (k', q) :: rest else (k', v) :: setKey rest k q

/-- Python `int()` applied to a float: truncation toward zero. -/
def pyInt (q : ℚ) : Int := if q < 0 then -⌊-q⌋ else ⌊q⌋

/-- Decimal digits of `n`, most significant first (`fuel`-structured so that
the kernel evaluates it). -/
def natToStrAux : ℕ → ℕ → List Char
  | 0, _ => []
  | fuel + 1, n =>
    if n < 10 then [Char.ofNat (48 + n)]
    else natToStrAux fuel (n / 10) ++ [Char.ofNat (48 + n % 10)]

/-- Decimal rendering of a natural number, as Python's `str`/f-string does. -/
def natToStr (n : ℕ) : String := ⟨natToStrAux (n + 1) n⟩

/-- Decimal rendering of an integer, as Python's f-string `{int(...)}` does. -/
def intToStr (i : Int) : String :=
  if i < 0 then "-" ++ natToStr i.natAbs else natToStr i.natAbs

/-- One pass of Python `str.replace`: replace every non-overlapping occurrence
of `pat`, left to right (`fuel`-structured; `fuel = length` suffices). -/
def replaceListAux (pat rep : List Char) : ℕ → List Char → List Char
  | 0, l => l
  | _ + 1, [] => []
  | fuel + 1, c :: rest =>
    if pat ≠ [] ∧ pat.isPrefixOf (c :: rest) then
      rep ++ replaceListAux pat rep fuel ((c :: rest).drop pat.length)
    else c :: replaceListAux pat rep fuel rest

/-- Python `s.replace(pat, rep)`. -/
def pyReplace (s pat rep : String) : String :=
  ⟨replaceListAux pat.toList rep.toList s.toList.length s.toList⟩

/-- Python `s.endswith(suffix)`. -/
def pyEndsWith (s suffix : String) : Bool := suffix.toList.isSuffixOf s.toList

/-- Python `s[:-n]`. -/
def pyDropRight (s : String) (n : ℕ) : String := ⟨s.toList.take (s.toList.length - n)⟩

/-- The natural number spelled by a run of decimal digits. -/
def natOfDigits (cs : List Char) : ℕ :=
  cs.foldl (fun n c => n * 10 + (c.toNat - 48)) 0

/-- Scan the plain decimal core of Python `float(s)`: optional sign, digits
with an optional single dot (at least one digit overall).  Returns the sign,
the digits read as one integer, and the number of fraction digits — all
non-rational data, so the kernel can evaluate the scan.  The engine only
feeds such strings to `float`; exponent/`inf`/`nan` forms are outside the
embedding. -/
def scanDecimal (cs : List Char) : Option (Bool × ℕ × ℕ) :=
  let signAndRest : Bool × List Char :=
    match cs with
    | c :: rest =>
      if c = '-' then (true, rest) else if c = '+' then (false, rest) else (false, cs)
    | [] => (false, [])
  match signAndRest.2.splitOn '.' with
  | [ip] =>
    if ip ≠ [] ∧ ip.all Char.isDigit then some (signAndRest.1, natOfDigits ip, 0)
    else none
  | [ip, fp] =>
    if (ip ≠ [] ∨ fp ≠ []) ∧ ip.all Char.isDigit ∧ fp.all Char.isDigit then
      some (signAndRest.1, natOfDigits (ip ++ fp), fp.length)
    else none
  | _ => none

/-- Python `float(s)`: the scanned decimal as a rational, or `ValueError`
(with CPython's message) on strings the decimal core rejects. -/
def pyFloat (s : String) : Except String ℚ :=
  match scanDecimal s.toList with
  | some (neg, digits, fracLen) =>
    Except.ok ((if neg then -1 else 1) * (digits : ℚ) / (10 : ℚ) ^ fracLen)
  | none => Except.error ("could not convert string to float: " ++ keyErr s)

/-! ## `KubernetesClient` (demo mode), from `src/remediation/kubernetes_client.py` -/

/-- The `details` payload of a demo-mode client result dictionary.  One
constructor per shape written in the source. -/
inductive OutcomeDetails : Type
  /-- The `scale_deployment`: namespace, deployment, `old_replicas`,
  `new_replicas`, timestamp. -/
  | scale (ns deployment : String) (old_replicas new_replicas : Int) (timestamp : String)
  /-- The `relocate_pod`: namespace, pod, `old_node`, `new_node`, timestamp. -/
  | relocate (ns pod old_node new_node timestamp : String)
  /-- The `optimize_resources`: namespace, deployment, the cpu/memory `changes`
  (`old` and `new` strings each), timestamp. -/
  | optimize (ns deployment cpu_old cpu_new mem_old mem_new timestamp : String)
deriving DecidableEq, Repr

/-- A client result dictionary: `{"action", "status", "details"}` on success
(`"error"` instead of `"details"` on the error paths, which demo mode never
takes). -/
structure ActionOutcome where
  action : String
  status : String
  details : Option OutcomeDetails := none
  error : Option String := none
deriving DecidableEq, Repr

/-- The dictionary returned by demo-mode `get_node_metrics`. -/
structure NodeMetrics where
  cpu_usage : ℚ
  memory_usage : ℚ
  disk_usage : ℚ
  network_usage : ℚ
deriving DecidableEq, Repr

/-- The `KubernetesClient.scale_deployment`, demo-mode branch. -/
def scale_deployment (ns name : String) (replicas : Int) (ts : String) : ActionOutcome :=
  { action := "scale_deployment", status := "success",
    details := some (.scale ns name (replicas - 1) replicas ts) }

/-- The `KubernetesClient.relocate_pod`, demo-mode branch. -/
def relocate_pod (ns pod_name : String) (ts : String) : ActionOutcome :=
  { action := "relocate_pod", status := "success",
    details := some (.relocate ns pod_name "node-1" "node-2" ts) }

/-- The `KubernetesClient.optimize_resources`, demo-mode branch; `none` request
arguments fall back to the literal defaults via `or`. -/
def optimize_resources (ns deployment : String)
    (cpu_request memory_request : Option String) (ts : String) : ActionOutcome :=
  { action := "optimize_resources", status := "success",
    details := some (.optimize ns deployment
      "500m" (cpu_request.getD "750m") "512Mi" (memory_request.getD "768Mi") ts) }

/-- The `KubernetesClient.get_node_metrics`, demo-mode branch: a constant
dictionary, whatever the node argument. -/
def get_node_metrics (_node_name : Option String) : NodeMetrics :=
  { cpu_usage := 75/100, memory_usage := 85/100, disk_usage := 60/100, network_usage := 40/100 }

/-- The `KubernetesClient._parse_cpu_value`: suffix `n`/`u`/`m` scaling; a failed
`float` is caught and degrades to `0.0`. -/
def parse_cpu_value (cpu : String) : ℚ :=
  if pyEndsWith cpu "n" then
    match pyFloat (pyDropRight cpu 1) with
    | Except.ok v => v / 1000000000
    | Except.error _ => 0
  else if pyEndsWith cpu "u" then
    match pyFloat (pyDropRight cpu 1) with
    | Except.ok v => v / 1000000
    | Except.error _ => 0
  else if pyEndsWith cpu "m" then
    match pyFloat (pyDropRight cpu 1) with
    | Except.ok v => v / 1000
    | Except.error _ => 0
  else
    match pyFloat cpu with
    | Except.ok v => v
    | Except.error _ => 0

/-- The `KubernetesClient._parse_memory_value`: suffix `Ki`/`Mi`/`Gi` scaling; a
failed `float` is caught and degrades to `0.0`. -/
def parse_memory_value (memory : String) : ℚ :=
  if pyEndsWith memory "Ki" then
    match pyFloat (pyDropRight memory 2) with
    | Except.ok v => v * 1024
    | Except.error _ => 0
  else if pyEndsWith memory "Mi" then
    match pyFloat (pyDropRight memory 2) with
    | Except.ok v => v * 1024 * 1024
    | Except.error _ => 0
  else if pyEndsWith memory "Gi" then
    match pyFloat (pyDropRight memory 2) with
    | Except.ok v => v * 1024 * 1024 * 1024
    | Except.error _ => 0
  else
    match pyFloat memory with
    | Except.ok v => v
    | Except.error _ => 0

/-- Modelled from the spec: `formatMillicores(value) -> string`, the inverse
formatting helper for CPU quantities — no named helper exists in the source
(the agent inlines the formatting) — "truncate value×1000 to an integer and
append `m`". -/
def formatMillicores (value : ℚ) : String := intToStr (pyInt (value * 1000)) ++ "m"

/-- Modelled from the spec: `formatMebibytes(value) -> string`, the inverse
formatting helper for memory quantities — no named helper exists in the
source — truncate the byte value scaled to mebibytes to an integer and append
`Mi`. -/
def formatMebibytes (value : ℚ) : String := intToStr (pyInt (value / (1024 * 1024))) ++ "Mi"

/-! ## Prediction and action-record dictionaries, from `src/remediation/agent.py` -/

/-- The `target` mapping of a prediction.  Every key the engine ever reads is
a field; `none` means the key is absent. -/
structure Target where
  ns : Option String := none
  deployment : Option String := none
  pod : Option String := none
  node : Option String := none
  replicas : Option Int := none
  current_cpu : Option String := none
  current_memory : Option String := none
deriving DecidableEq, Repr

/-- The `details` mapping of a prediction. -/
structure DetailsMap where
  usage_increase : Option ℚ := none
  cpu_adjustment : Option ℚ := none
  memory_adjustment : Option ℚ := none
deriving DecidableEq, Repr

/-- A prediction dictionary as received by `handle_prediction`. -/
structure Prediction where
  issue_type : Option String := none
  confidence : Option ℚ := none
  target : Option Target := none
  details : Option DetailsMap := none
deriving DecidableEq, Repr

/-- An action dictionary as built by the plan builders and stored in
`action_history`.  The builders create `{"type": ..., "details": ...}` only;
`timestamp` is stamped by `handle_prediction`; `success`, `duration` and `id`
are keys that nothing in the engine ever sets (hence default `none`);
`false_positive` is set only by `mark_false_positive`. -/
structure ActionRecord where
  type_ : String
  details : ActionOutcome
  timestamp : Option String := none
  success : Option Bool := none
  duration : Option ℚ := none
  id : Option String := none
  false_positive : Bool := false
deriving DecidableEq, Repr

/-- The dictionary returned by one `handle_prediction` call. -/
structure RemediationResult where
  timestamp : String
  prediction : Prediction
  actions : List ActionRecord
  success : Bool
  error : Option String := none
deriving DecidableEq, Repr

/-! ## `MetricsCollector`, from `src/remediation/metrics.py` -/

/-- The collector's prometheus objects, each embedded as the map of per-label
values its children accumulate through the public `.labels(...).inc()` /
`.observe()` / `.set()` calls, empty at construction.  `action_counter` is
keyed by `(action_type, str(success))`; `resource_utilization` by
`(resource_type, namespace)`.  Note the report path of `metrics.py` never
reads these values: it goes through private parent attributes that do not
exist (see `MetricsCollector.get_metrics` below). -/
structure MetricsCollector where
  action_counter : List ((String × String) × ℕ) := []
  action_duration_sum : List (String × ℚ) := []
  action_duration_count : List (String × ℕ) := []
  prevention_counter : List (String × ℕ) := []
  false_positive_counter : List (String × ℕ) := []
  resource_utilization : List ((String × String) × ℚ) := []
deriving DecidableEq, Repr

/-- The `MetricsCollector.record_action`: bump the `(action_type, str(success))`
count and observe the duration for `action_type`. -/
def MetricsCollector.record_action (m : MetricsCollector)
    (action_type : String) (success : Bool) (duration : ℚ) : MetricsCollector :=
  { m with
    action_counter := incKey m.action_counter (action_type, boolStr success),
    action_duration_sum := addKey m.action_duration_sum action_type duration,
    action_duration_count := incKey m.action_duration_count action_type }

/-- The `MetricsCollector.record_prevention`. -/
def MetricsCollector.record_prevention (m : MetricsCollector) (issue_type : String) :
    MetricsCollector :=
  { m with prevention_counter := incKey m.prevention_counter issue_type }

/-- The `MetricsCollector.record_false_positive`: keyed by `action.get("type",
"unknown")`; the records of this engine always carry a `type`. -/
def MetricsCollector.record_false_positive (m : MetricsCollector) (action : ActionRecord) :
    MetricsCollector :=
  { m with false_positive_counter := incKey m.false_positive_counter action.type_ }

/-- The `MetricsCollector.record_resource_utilization`: last-write-wins gauge. -/
def MetricsCollector.record_resource_utilization (m : MetricsCollector)
    (resource_type ns : String) (value : ℚ) : MetricsCollector :=
  { m with resource_utilization := setKey m.resource_utilization (resource_type, ns) value }

/-- The CPython message of the `AttributeError` raised when reading a missing
attribute `attr` on an object of class `cls`. -/
def attrErr (cls attr : String) : String :=
  keyErr cls ++ " object has no attribute " ++ keyErr attr

/-- Raised by every private-attribute read the report path of `metrics.py`
performs: `prometheus_client` keeps per-label values on the children created
by `.labels(...)` and gives a labelled parent **no** `_value` or `_sum`
attribute (the parent holds only `_metrics`), and `Histogram` has no `_count`
attribute in any released version.  Each such read therefore raises
`AttributeError` before any value is computed. -/
def missingAttr (α : Type) (cls attr : String) : Except String α :=
  Except.error (attrErr cls attr)

/-- The `try` block of `MetricsCollector._calculate_success_rate`: its first
statement `total = self.action_counter._value.sum()` raises (labelled
`Counter` parents have no `_value`), so the successes-over-total computation
in the remaining lines is dead code. -/
def calculate_success_rate_body (_m : MetricsCollector) : Except String ℚ :=
  missingAttr ℚ "Counter" "_value"

/-- The `MetricsCollector._calculate_success_rate`: the `try` block dies on
the `Counter._value` read, so the `except` clause returns 0.0 on every call,
whatever has been recorded. -/
def MetricsCollector.calculate_success_rate (m : MetricsCollector) : ℚ :=
  match calculate_success_rate_body m with
  | Except.ok v => v
  | Except.error _ => 0

/-- The `try` block of `MetricsCollector._calculate_average_duration`: its
first read `self.action_duration._sum.sum()` raises (labelled `Histogram`
parents have no `_sum`; nor does any `Histogram` have the `_count` the next
line would read). -/
def calculate_average_duration_body (_m : MetricsCollector) : Except String ℚ :=
  missingAttr ℚ "Histogram" "_sum"

/-- The `MetricsCollector._calculate_average_duration`: the `try` block dies
on the `Histogram._sum` read, so the `except` clause returns 0.0 on every
call. -/
def MetricsCollector.calculate_average_duration (m : MetricsCollector) : ℚ :=
  match calculate_average_duration_body m with
  | Except.ok v => v
  | Except.error _ => 0

/-- The `try` block of `MetricsCollector._get_resource_utilization`: its loop
header reads `self.resource_utilization._value.items()`, which raises
(labelled `Gauge` parents have no `_value`). -/
def get_resource_utilization_body (_m : MetricsCollector) :
    Except String (List (String × List (String × ℚ))) :=
  missingAttr (List (String × List (String × ℚ))) "Gauge" "_value"

/-- The `MetricsCollector._get_resource_utilization`: the `try` block dies on
the `Gauge._value` read, so the `except` clause returns the empty dictionary
on every call. -/
def MetricsCollector.get_resource_utilization (m : MetricsCollector) :
    List (String × List (String × ℚ)) :=
  match get_resource_utilization_body m with
  | Except.ok u => u
  | Except.error _ => []

/-- The dictionary `MetricsCollector.get_metrics` attempts to build
(flattened: `actions_total` is `["actions"]["total"]`, and so on).  Its
construction never completes — see `MetricsCollector.get_metrics`. -/
structure MetricsSnapshot where
  actions_total : ℕ
  success_rate : ℚ
  average_duration : ℚ
  preventions_total : ℕ
  false_positives_total : ℕ
  resource_utilization : List (String × List (String × ℚ))
deriving DecidableEq, Repr

/-- The `try` block of `MetricsCollector.get_metrics`: building the result
dictionary evaluates `self.action_counter._value.sum()` first, which raises
before anything else (in particular before the helper calls that would catch
their own errors). -/
def get_metrics_body (_m : MetricsCollector) : Except String MetricsSnapshot :=
  missingAttr MetricsSnapshot "Counter" "_value"

/-- The `MetricsCollector.get_metrics`: the `try` block dies on its first
dictionary entry, so the `except` clause returns the empty dictionary
(`none` here) on every call; the populated snapshot is never produced. -/
def MetricsCollector.get_metrics (m : MetricsCollector) : Option MetricsSnapshot :=
  match get_metrics_body m with
  | Except.ok s => some s
  | Except.error _ => none

/-! ## `RemediationAgent`, from `src/remediation/agent.py` -/

/-- The agent's mutable state: the metrics collector, the action history, the
demo flag and the confidence threshold (default `0.8`). -/
structure RemediationAgent where
  metrics : MetricsCollector := {}
  action_history : List ActionRecord := []
  demo_mode : Bool := true
  prediction_threshold : ℚ := 8/10
deriving DecidableEq, Repr

/-- The `RemediationAgent()` as constructed by the API server: demo mode, empty
history, fresh collector, threshold `0.8`. -/
def initAgent : RemediationAgent := {}

/-- The `RemediationAgent._handle_resource_exhaustion`: when
`prediction.get("details", {}).get("usage_increase", 0) > 0.8`, plan a scale
to `target.get("replicas", 1) + 1`; always additionally plan an optimization.
Target subscripts are evaluated in source order (`namespace` before
`deployment`). -/
def handle_resource_exhaustion (p : Prediction) (ts : String) :
    Except String (List ActionRecord) :=
  match p.target with
  | none => Except.error (keyErr "target")
  | some target =>
    if (p.details.getD {}).usage_increase.getD 0 > 8/10 then
      -- the scale call and the optimize call read the same two target
      -- subscripts, in the same order, so the source's two lookup pairs
      -- collapse into one here
      match target.ns with
      | none => Except.error (keyErr "namespace")
      | some ns =>
        match target.deployment with
        | none => Except.error (keyErr "deployment")
        | some dep =>
          Except.ok [{ type_ := "scale_deployment",
                       details := scale_deployment ns dep (target.replicas.getD 1 + 1) ts },
                     { type_ := "optimize_resources",
                       details := optimize_resources ns dep none none ts }]
    else
      match target.ns with
      | none => Except.error (keyErr "namespace")
      | some ns =>
        match target.deployment with
        | none => Except.error (keyErr "deployment")
        | some dep =>
          Except.ok [{ type_ := "optimize_resources",
                       details := optimize_resources ns dep none none ts }]

/-- The `RemediationAgent._handle_node_failure`: exactly one pod relocation. -/
def handle_node_failure (p : Prediction) (ts : String) :
    Except String (List ActionRecord) :=
  match p.target with
  | none => Except.error (keyErr "target")
  | some target =>
    match target.ns with
    | none => Except.error (keyErr "namespace")
    | some ns =>
      match target.pod with
      | none => Except.error (keyErr "pod")
      | some pod =>
        Except.ok [{ type_ := "relocate_pod", details := relocate_pod ns pod ts }]

/-- The `RemediationAgent._handle_resource_bottleneck`: multiply the current
quantities (defaults `"100m"`/`"128Mi"`) by the adjustment factors (defaults
`1.2`), truncate with `int()`, re-append the suffix, and plan one
optimization carrying the new requests.  `prediction["details"]` is a
subscript (raises when absent); `float()` on the stripped quantity may raise
`ValueError`. -/
def handle_resource_bottleneck (p : Prediction) (ts : String) :
    Except String (List ActionRecord) :=
  match p.target with
  | none => Except.error (keyErr "target")
  | some target =>
    match p.details with
    | none => Except.error (keyErr "details")
    | some details =>
      match pyFloat (pyReplace (target.current_cpu.getD "100m") "m" "") with
      | Except.error e => Except.error e
      | Except.ok cpuVal =>
        match pyFloat (pyReplace (target.current_memory.getD "128Mi") "Mi" "") with
        | Except.error e => Except.error e
        | Except.ok memVal =>
          match target.ns with
          | none => Except.error (keyErr "namespace")
          | some ns =>
            match target.deployment with
            | none => Except.error (keyErr "deployment")
            | some dep =>
              Except.ok [{ type_ := "optimize_resources",
                           details := optimize_resources ns dep
                             (some (intToStr
                               (pyInt (cpuVal * details.cpu_adjustment.getD (12/10))) ++ "m"))
                             (some (intToStr
                               (pyInt (memVal * details.memory_adjustment.getD (12/10))) ++ "Mi"))
                             ts }]

/-- The `RemediationAgent._handle_performance_degradation`: read the node metrics
(demo-mode constants) and plan one optimization when cpu or memory usage
exceeds 0.8, otherwise nothing. -/
def handle_performance_degradation (p : Prediction) (ts : String) :
    Except String (List ActionRecord) :=
  match p.target with
  | none => Except.error (keyErr "target")
  | some target =>
    match target.node with
    | none => Except.error (keyErr "node")
    | some node =>
      let m := get_node_metrics (some node)
      if m.cpu_usage > 8/10 ∨ m.memory_usage > 8/10 then
        match target.ns with
        | none => Except.error (keyErr "namespace")
        | some ns =>
          match target.deployment with
          | none => Except.error (keyErr "deployment")
          | some dep =>
            Except.ok [{ type_ := "optimize_resources",
                         details := optimize_resources ns dep none none ts }]
      else Except.ok []

/-- The `str()` of the `UnboundLocalError` raised when the record loop reads the
`action_type` local that the `performance_degradation` branch never assigns
(CPython 3.11+ wording). -/
def unboundActionType : String :=
  "cannot access local variable \x27action_type\x27 where it is not associated with a value"

/-- The record loop of `handle_prediction` (source lines 64–67): for each
action, stamp the timestamp, append to the history, then call
`metrics.record_action(action_type, action["success"], action.get("duration",
0))` — evaluating `action_type` (possibly unbound) and then the `"success"`
subscript.  Returns the state as mutated so far together with either the
(stamped) action list or the first exception. -/
def record_actions (st : RemediationAgent) (action_type : Option String) (ts : String) :
    List ActionRecord → RemediationAgent × Except String (List ActionRecord)
  | [] => (st, Except.ok [])
  | action :: rest =>
    let stamped : ActionRecord := { action with timestamp := some ts }
    let st₁ : RemediationAgent :=
      { st with action_history := st.action_history ++ [stamped] }
    match action_type with
    | none => (st₁, Except.error unboundActionType)
    | some aty =>
      match stamped.success with
      | none => (st₁, Except.error (keyErr "success"))
      | some s =>
        let st₂ : RemediationAgent :=
          { st₁ with metrics := st₁.metrics.record_action aty s (stamped.duration.getD 0) }
        let next := record_actions st₂ action_type ts rest
        (next.1, next.2.map (stamped :: ·))

/-- Source lines 63–78 of `handle_prediction`: run the record loop, bump the
prevention counter when the plan was non-empty (`if actions:`), and build the
normal return dictionary (`success` is still its initial `True` here). -/
def record_and_return (st : RemediationAgent) (p : Prediction) (ts it : String)
    (actions : List ActionRecord) (action_type : Option String) :
    RemediationAgent × Except String RemediationResult :=
  match record_actions st action_type ts actions with
  | (st', Except.error e) => (st', Except.error e)
  | (st', Except.ok stamped) =>
    let st'' : RemediationAgent :=
      if actions = [] then st'
      else { st' with metrics := st'.metrics.record_prevention it }
    (st'', Except.ok { timestamp := ts, prediction := p, actions := stamped,
                       success := true, error := none })

/-- One dispatch branch of `handle_prediction`: if the plan builder raised,
the exception propagates with the state untouched; otherwise the record
section (`record_and_return`) runs on the planned actions, with whatever the
branch assigned to the `action_type` local (`none` = left unassigned). -/
def dispatch_tail (st : RemediationAgent) (p : Prediction) (ts it : String)
    (plan : Except String (List ActionRecord)) (action_type : Option String) :
    RemediationAgent × Except String RemediationResult :=
  match plan with
  | Except.error e => (st, Except.error e)
  | Except.ok actions => record_and_return st p ts it actions action_type

/-- The `try` block of `RemediationAgent.handle_prediction`: threshold gate,
four-way dispatch (recording which branch assigned the `action_type` local),
record loop, prevention bump, and the normal return.  `Except.ok` covers both
the early below-threshold return and the normal return; `Except.error`
carries `str(e)` of the exception the `except` clause will catch, next to the
state as already mutated. -/
def handle_prediction_body (st : RemediationAgent) (p : Prediction) (ts : String) :
    RemediationAgent × Except String RemediationResult :=
  match dictGet p.confidence "confidence" with
  | Except.error e => (st, Except.error e)
  | Except.ok conf =>
    if conf < st.prediction_threshold then
      (st, Except.ok { timestamp := ts, prediction := p, actions := [], success := false })
    else
      match dictGet p.issue_type "issue_type" with
      | Except.error e => (st, Except.error e)
      | Except.ok it =>
        if it = "resource_exhaustion" then
          dispatch_tail st p ts it (handle_resource_exhaustion p ts) (some "resource_scaling")
        else if it = "node_failure" then
          dispatch_tail st p ts it (handle_node_failure p ts) (some "pod_relocation")
        else if it = "resource_bottleneck" then
          dispatch_tail st p ts it (handle_resource_bottleneck p ts)
            (some "resource_optimization")
        else if it = "performance_degradation" then
          dispatch_tail st p ts it (handle_performance_degradation p ts) none
        else (st, Except.error ("Unknown issue type: " ++ it))

/-- The `RemediationAgent.handle_prediction`: run the `try` block; on an
exception, return the `except`-path dictionary (`success=False`, the
exception message, empty action list) over the state as already mutated. -/
def handle_prediction (st : RemediationAgent) (p : Prediction) (ts : String) :
    RemediationAgent × RemediationResult :=
  match handle_prediction_body st p ts with
  | (st', Except.ok r) => (st', r)
  | (st', Except.error e) =>
    (st', { timestamp := ts, prediction := p, actions := [], success := false,
            error := some e })

/-- The `RemediationAgent.get_action_history`. -/
def get_action_history (st : RemediationAgent) : List ActionRecord := st.action_history

/-- The `RemediationAgent.set_prediction_threshold`: accept values in `[0, 1]`,
raise `ValueError` (leaving the threshold untouched) otherwise. -/
def set_prediction_threshold (st : RemediationAgent) (threshold : ℚ) :
    RemediationAgent × Except String Unit :=
  if 0 ≤ threshold ∧ threshold ≤ 1 then
    ({ st with prediction_threshold := threshold }, Except.ok ())
  else (st, Except.error "Threshold must be between 0 and 1")

/-- The `RemediationAgent.get_effectiveness_metrics`; like `get_metrics` it
returns the empty dictionary (`none`) on every call. -/
def get_effectiveness_metrics (st : RemediationAgent) : Option MetricsSnapshot :=
  st.metrics.get_metrics

/-- The scan inside `RemediationAgent.mark_false_positive`: find the first
history entry whose `id` and `type` both match, set its `false_positive`
flag, bump the collector's false-positive counter, and report whether a match
was found. -/
def mark_fp_scan (m : MetricsCollector) (aid aty : String) :
    List ActionRecord → MetricsCollector × List ActionRecord × Bool
  | [] => (m, [], false)
  | a :: rest =>
    if a.id = some aid ∧ a.type_ = aty then
      let a' : ActionRecord := { a with false_positive := true }
      (m.record_false_positive a', a' :: rest, true)
    else
      match mark_fp_scan m aid aty rest with
      | (m', rest', found) => (m', a :: rest', found)

/-- The `RemediationAgent.mark_false_positive`. -/
def mark_false_positive (st : RemediationAgent) (action_id action_type : String) :
    RemediationAgent × Bool :=
  match mark_fp_scan st.metrics action_id action_type st.action_history with
  | (m', hist', found) => ({ st with metrics := m', action_history := hist' }, found)

/-! ## Reachability and concrete inputs -/

/-- Agent states reachable from a fresh agent through `handle_prediction`
calls alone. -/
inductive Reachable : RemediationAgent → Prop
  | init : Reachable initAgent
  | step (st : RemediationAgent) (p : Prediction) (ts : String) :
      Reachable st → Reachable (handle_prediction st p ts).1

/-- Every entry of the action history lacks the `id` key. -/
def noIds (st : RemediationAgent) : Prop :=
  ∀ a ∈ st.action_history, a.id = none

/-- The resource-exhaustion prediction of the spec's test property (also the
payload `test_api.py` posts): confidence 0.95, `usage_increase` 0.9,
`replicas` 2. -/
def exhaustionPred : Prediction :=
  { issue_type := some "resource_exhaustion", confidence := some (95/100),
    target := some { ns := some "default", deployment := some "web-app",
                     replicas := some 2 },
    details := some { usage_increase := some (9/10) } }

/-- The resource-bottleneck target of the spec's numerical test property:
current cpu `"500m"`, current memory `"512Mi"`. -/
def bottleneckTarget : Target :=
  { ns := some "default", deployment := some "resource-heavy",
    current_cpu := some "500m", current_memory := some "512Mi" }

/-- The resource-bottleneck adjustment details of the spec's numerical test
property: cpu ×1.5, memory ×1.2. -/
def bottleneckDetails : DetailsMap :=
  { cpu_adjustment := some (3/2), memory_adjustment := some (6/5) }

/-- A resource-bottleneck prediction over `bottleneckTarget` and
`bottleneckDetails` with the given confidence. -/
def bottleneckPred (c : ℚ) : Prediction :=
  { issue_type := some "resource_bottleneck", confidence := some c,
    target := some bottleneckTarget, details := some bottleneckDetails }

/-- The single optimize-resources record the bottleneck plan builder produces
for `bottleneckPred`: its newly computed requests are `"750m"` and
`"614Mi"`. -/
def bottleneckRecord (ts : String) : ActionRecord :=
  { type_ := "optimize_resources",
    details := optimize_resources "default" "resource-heavy"
      (some "750m") (some "614Mi") ts }

/-- The stamped scale record that `handle_prediction` appends to the history
for `exhaustionPred` before the record loop raises `KeyError` on
`action["success"]`. -/
def scaleRecordStamped : ActionRecord :=
  { type_ := "scale_deployment",
    details := scale_deployment "default" "web-app" 3 "t0",
    timestamp := some "t0" }

/-- The agent state after `handle_prediction initAgent exhaustionPred "t0"`:
only the scale record reached the history; the metrics are untouched. -/
def postExhaustionAgent : RemediationAgent :=
  { action_history := [scaleRecordStamped] }

/-- A prediction whose confidence 0.5 is below the default threshold 0.8. -/
def lowConfPred : Prediction :=
  { issue_type := some "resource_exhaustion", confidence := some (1/2) }

/-- A confident prediction with an issue type outside the four-way branch. -/
def unknownTypePred : Prediction :=
  { issue_type := some "disk_pressure", confidence := some 1 }

/-! ## Supporting lemmas -/

/-- Evaluation rule for `pyFloat` on a string whose scan is known. -/
theorem pyFloat_eval (s : String) (neg : Bool) (d fl : ℕ)
    (h : scanDecimal s.toList = some (neg, d, fl)) :
    pyFloat s = Except.ok ((if neg then -1 else 1) * (d : ℚ) / (10 : ℚ) ^ fl) := by
  simp only [pyFloat, h]

/-- Records planned by the resource-exhaustion builder never carry the
`success` or `id` keys. -/
theorem exhaustion_bare (p : Prediction) (ts : String) (acts : List ActionRecord)
    (h : handle_resource_exhaustion p ts = Except.ok acts) :
    ∀ a ∈ acts, a.success = none ∧ a.id = none := by
  intro a ha
  unfold handle_resource_exhaustion at h
  repeat' split at h
  all_goals first
    | exact Except.noConfusion h
    | (injection h with h; subst h; fin_cases ha <;> exact ⟨rfl, rfl⟩)

/-- Records planned by the node-failure builder never carry the `success` or
`id` keys. -/
theorem node_failure_bare (p : Prediction) (ts : String) (acts : List ActionRecord)
    (h : handle_node_failure p ts = Except.ok acts) :
    ∀ a ∈ acts, a.success = none ∧ a.id = none := by
  intro a ha
  unfold handle_node_failure at h
  repeat' split at h
  all_goals first
    | exact Except.noConfusion h
    | (injection h with h; subst h; fin_cases ha <;> exact ⟨rfl, rfl⟩)

/-- Records planned by the resource-bottleneck builder never carry the
`success` or `id` keys. -/
theorem bottleneck_bare (p : Prediction) (ts : String) (acts : List ActionRecord)
    (h : handle_resource_bottleneck p ts = Except.ok acts) :
    ∀ a ∈ acts, a.success = none ∧ a.id = none := by
  intro a ha
  unfold handle_resource_bottleneck at h
  repeat' split at h
  all_goals first
    | exact Except.noConfusion h
    | (injection h with h; subst h; fin_cases ha <;> exact ⟨rfl, rfl⟩)

/-- Records planned by the performance-degradation builder never carry the
`success` or `id` keys. -/
theorem degradation_bare (p : Prediction) (ts : String) (acts : List ActionRecord)
    (h : handle_performance_degradation p ts = Except.ok acts) :
    ∀ a ∈ acts, a.success = none ∧ a.id = none := by
  intro a ha
  unfold handle_performance_degradation at h
  norm_num [get_node_metrics] at h
  repeat' split at h
  all_goals first
    | exact Except.noConfusion h
    | (injection h with h; subst h; fin_cases ha <;> exact ⟨rfl, rfl⟩)

/-- The record loop only completes without an exception when the planned list
is empty: the first iteration on a record without the `success` key raises. -/
theorem record_actions_ok (st : RemediationAgent) (aty : Option String) (ts : String)
    (l : List ActionRecord) (st' : RemediationAgent) (out : List ActionRecord)
    (hbare : ∀ a ∈ l, a.success = none)
    (h : record_actions st aty ts l = (st', Except.ok out)) :
    l = [] ∧ out = [] ∧ st' = st := by
  cases l with
  | nil =>
    unfold record_actions at h
    injection h with h₁ h₂
    injection h₂ with h₂
    exact ⟨rfl, h₂.symm, h₁.symm⟩
  | cons a rest =>
    exfalso
    have hs : a.success = none := hbare a (List.mem_cons_self a rest)
    unfold record_actions at h
    cases aty with
    | none => simp at h
    | some aty' => simp [hs] at h

/-- The record loop never removes history entries: the incoming history is a
prefix of the outgoing one. -/
theorem record_actions_hist (aty : Option String) (ts : String) (l : List ActionRecord) :
    ∀ st : RemediationAgent,
      st.action_history <+: (record_actions st aty ts l).1.action_history := by
  induction l with
  | nil => intro st; simp [record_actions]
  | cons a rest ih =>
    intro st
    unfold record_actions
    cases aty with
    | none => simpa using List.prefix_append _ _
    | some aty' =>
      cases hs : a.success with
      | none => simp [hs]
      | some s =>
        simp only [hs]
        refine List.IsPrefix.trans ?_ (ih _)
        exact List.prefix_append _ _

/-- When the record section returns normally, the plan was empty, the state
is untouched and the result is the normal return with an empty action list. -/
theorem record_and_return_ok (st : RemediationAgent) (p : Prediction) (ts it : String)
    (actions : List ActionRecord) (aty : Option String) (st' : RemediationAgent)
    (r : RemediationResult)
    (hbare : ∀ a ∈ actions, a.success = none)
    (h : record_and_return st p ts it actions aty = (st', Except.ok r)) :
    actions = [] ∧ st' = st ∧
      r = { timestamp := ts, prediction := p, actions := [],
            success := true, error := none } := by
  unfold record_and_return at h
  rcases hrec : record_actions st aty ts actions with ⟨st₂, res⟩
  rw [hrec] at h
  cases res with
  | error e => simp at h
  | ok stamped =>
    obtain ⟨hnil, hout, hst⟩ := record_actions_ok st aty ts actions st₂ stamped hbare hrec
    subst hnil hout hst
    simp at h
    exact ⟨rfl, h.1.symm, h.2.symm⟩

/-- The record section never removes history entries. -/
theorem record_and_return_hist (st : RemediationAgent) (p : Prediction) (ts it : String)
    (actions : List ActionRecord) (aty : Option String) :
    st.action_history <+: (record_and_return st p ts it actions aty).1.action_history := by
  unfold record_and_return
  have hpre := record_actions_hist aty ts actions st
  rcases hrec : record_actions st aty ts actions with ⟨st₂, res⟩
  rw [hrec] at hpre
  cases res with
  | error e => simpa using hpre
  | ok stamped =>
    by_cases hnil : actions = [] <;> simpa [hnil] using hpre

/-- When a dispatch branch returns normally and its plan builder only plans
records without the `success` key, the returned action list is empty. -/
theorem dispatch_tail_ok (st : RemediationAgent) (p : Prediction) (ts it : String)
    (plan : Except String (List ActionRecord)) (aty : Option String)
    (st' : RemediationAgent) (r : RemediationResult)
    (hbare : ∀ acts, plan = Except.ok acts → ∀ a ∈ acts, a.success = none)
    (h : dispatch_tail st p ts it plan aty = (st', Except.ok r)) :
    r.actions = [] := by
  unfold dispatch_tail at h
  cases plan with
  | error e => simp at h
  | ok acts =>
    obtain ⟨-, -, hr⟩ := record_and_return_ok st p ts it acts aty st' r (hbare acts rfl) h
    rw [hr]

/-- A dispatch branch never removes history entries. -/
theorem dispatch_tail_hist (st : RemediationAgent) (p : Prediction) (ts it : String)
    (plan : Except String (List ActionRecord)) (aty : Option String) :
    st.action_history <+: (dispatch_tail st p ts it plan aty).1.action_history := by
  unfold dispatch_tail
  cases plan with
  | error e => exact List.prefix_rfl
  | ok acts => exact record_and_return_hist st p ts it acts aty

/-- Any normal return of the `try` block carries an empty action list: a
non-empty plan always raises `KeyError` at `action["success"]` first (or
`UnboundLocalError` on the branch that leaves `action_type` unassigned). -/
theorem body_ok_actions (st : RemediationAgent) (p : Prediction) (ts : String)
    (st' : RemediationAgent) (r : RemediationResult)
    (h : handle_prediction_body st p ts = (st', Except.ok r)) :
    r.actions = [] := by
  unfold handle_prediction_body at h
  cases hconf : p.confidence with
  | none => rw [hconf] at h; simp [dictGet] at h
  | some c =>
    rw [hconf] at h
    simp only [dictGet] at h
    by_cases hlt : c < st.prediction_threshold
    · rw [if_pos hlt] at h
      injection h with h₁ h₂
      injection h₂ with h₂
      subst h₂
      rfl
    · rw [if_neg hlt] at h
      cases hit : p.issue_type with
      | none => rw [hit] at h; simp [dictGet] at h
      | some it =>
        rw [hit] at h
        simp only [dictGet] at h
        by_cases h1 : it = "resource_exhaustion"
        · rw [if_pos h1] at h
          exact dispatch_tail_ok _ _ _ _ _ _ _ _
            (fun acts hacts a ha => (exhaustion_bare p ts acts hacts a ha).1) h
        rw [if_neg h1] at h
        by_cases h2 : it = "node_failure"
        · rw [if_pos h2] at h
          exact dispatch_tail_ok _ _ _ _ _ _ _ _
            (fun acts hacts a ha => (node_failure_bare p ts acts hacts a ha).1) h
        rw [if_neg h2] at h
        by_cases h3 : it = "resource_bottleneck"
        · rw [if_pos h3] at h
          exact dispatch_tail_ok _ _ _ _ _ _ _ _
            (fun acts hacts a ha => (bottleneck_bare p ts acts hacts a ha).1) h
        rw [if_neg h3] at h
        by_cases h4 : it = "performance_degradation"
        · rw [if_pos h4] at h
          exact dispatch_tail_ok _ _ _ _ _ _ _ _
            (fun acts hacts a ha => (degradation_bare p ts acts hacts a ha).1) h
        rw [if_neg h4] at h
        simp at h

/-- The `try` block never removes history entries. -/
theorem body_hist (st : RemediationAgent) (p : Prediction) (ts : String) :
    st.action_history <+: (handle_prediction_body st p ts).1.action_history := by
  unfold handle_prediction_body
  cases hconf : p.confidence with
  | none => simp [dictGet]
  | some c =>
    simp only [dictGet]
    by_cases hlt : c < st.prediction_threshold
    · rw [if_pos hlt]
    · rw [if_neg hlt]
      cases hit : p.issue_type with
      | none => simp [dictGet]
      | some it =>
        simp only [dictGet]
        by_cases h1 : it = "resource_exhaustion"
        · rw [if_pos h1]; exact dispatch_tail_hist _ _ _ _ _ _
        rw [if_neg h1]
        by_cases h2 : it = "node_failure"
        · rw [if_pos h2]; exact dispatch_tail_hist _ _ _ _ _ _
        rw [if_neg h2]
        by_cases h3 : it = "resource_bottleneck"
        · rw [if_pos h3]; exact dispatch_tail_hist _ _ _ _ _ _
        rw [if_neg h3]
        by_cases h4 : it = "performance_degradation"
        · rw [if_pos h4]; exact dispatch_tail_hist _ _ _ _ _ _
        rw [if_neg h4]

/-- The `handle_prediction` forwards a normal return of the `try` block. -/
theorem handle_prediction_of_ok (st : RemediationAgent) (p : Prediction) (ts : String)
    (st' : RemediationAgent) (r : RemediationResult)
    (h : handle_prediction_body st p ts = (st', Except.ok r)) :
    handle_prediction st p ts = (st', r) := by
  unfold handle_prediction
  rw [h]

/-- The `handle_prediction` turns an exception of the `try` block into the
`except`-path dictionary over the state as already mutated. -/
theorem handle_prediction_of_error (st : RemediationAgent) (p : Prediction) (ts : String)
    (st' : RemediationAgent) (e : String)
    (h : handle_prediction_body st p ts = (st', Except.error e)) :
    handle_prediction st p ts = (st',
      { timestamp := ts, prediction := p, actions := [], success := false,
        error := some e }) := by
  unfold handle_prediction
  rw [h]

/-- Every result `handle_prediction` returns has an empty `actions` list. -/
theorem handle_prediction_actions_nil (st : RemediationAgent) (p : Prediction) (ts : String) :
    (handle_prediction st p ts).2.actions = [] := by
  rcases hb : handle_prediction_body st p ts with ⟨st', res⟩
  cases res with
  | ok r =>
    rw [handle_prediction_of_ok st p ts st' r hb]
    exact body_ok_actions st p ts st' r hb
  | error e =>
    rw [handle_prediction_of_error st p ts st' e hb]

/-- The `handle_prediction` never removes history entries. -/
theorem handle_prediction_hist (st : RemediationAgent) (p : Prediction) (ts : String) :
    st.action_history <+: (handle_prediction st p ts).1.action_history := by
  have hb := body_hist st p ts
  rcases h : handle_prediction_body st p ts with ⟨st', res⟩
  rw [h] at hb
  cases res with
  | ok r => rw [handle_prediction_of_ok st p ts st' r h]; exact hb
  | error e => rw [handle_prediction_of_error st p ts st' e h]; exact hb

/-! ## Claim theorems -/

/-- C1 (code evaluation at the spec's test input): for the resource-exhaustion
prediction with confidence 0.95, `usage_increase` 0.9 and `replicas` 2, the
record loop raises `KeyError` at `action["success"]` right after appending the
first planned action, so only the scale record (targeting replicas = 3)
reaches the history, the metrics stay untouched, and the call returns
`success = False` with an empty action list and the error `'success'` —
not the two recorded actions and `success = True` the claim states. -/
theorem c1_record_loop_key_error :
    (handle_prediction initAgent exhaustionPred "t0").2 =
      { timestamp := "t0", prediction := exhaustionPred, actions := [],
        success := false, error := some (keyErr "success") }
  ∧ (handle_prediction initAgent exhaustionPred "t0").1.action_history = [scaleRecordStamped]
  ∧ (handle_prediction initAgent exhaustionPred "t0").1.metrics = ({} : MetricsCollector) := by
  norm_num [handle_prediction, handle_prediction_body, handle_resource_exhaustion,
    dispatch_tail, record_and_return, record_actions, dictGet, exhaustionPred,
    initAgent, scale_deployment, optimize_resources, scaleRecordStamped]

/-- C2: no result of `handle_prediction` ever reports `success = true`
together with a non-empty action list — whenever `success` is true the
returned `actions` list is empty. -/
theorem c2_success_excludes_actions (st : RemediationAgent) (p : Prediction) (ts : String) :
    (handle_prediction st p ts).2.success = false ∨
    (handle_prediction st p ts).2.actions = [] :=
  Or.inr (handle_prediction_actions_nil st p ts)

/-- C3: a prediction whose confidence is strictly below the threshold returns
immediately with `success = false`, an empty action list and no error, and
the agent state (action log and every metrics counter) is unchanged. -/
theorem c3_below_threshold (st : RemediationAgent) (p : Prediction) (ts : String) (c : ℚ)
    (hconf : p.confidence = some c) (hlt : c < st.prediction_threshold) :
    handle_prediction st p ts =
      (st, { timestamp := ts, prediction := p, actions := [],
             success := false, error := none }) := by
  have hb : handle_prediction_body st p ts =
      (st, Except.ok { timestamp := ts, prediction := p, actions := [],
                       success := false, error := none }) := by
    unfold handle_prediction_body
    rw [hconf]
    simp only [dictGet]
    rw [if_pos hlt]
  exact handle_prediction_of_ok st p ts st _ hb

/-- Witness for C3 at `lowConfPred` over a fresh agent. -/
theorem c3_witness :
    lowConfPred.confidence = some (1/2)
  ∧ (1/2 : ℚ) < initAgent.prediction_threshold
  ∧ handle_prediction initAgent lowConfPred "t0" =
      (initAgent, { timestamp := "t0", prediction := lowConfPred, actions := [],
                    success := false, error := none }) :=
  ⟨rfl, by norm_num [initAgent],
   c3_below_threshold initAgent lowConfPred "t0" (1/2) rfl (by norm_num [initAgent])⟩

/-- C4: a confident prediction with an unrecognized issue type fails with the
`Unknown issue type` message (which names the type and is non-empty), an
empty action list, and an unchanged agent state. -/
theorem c4_unknown_issue_type (st : RemediationAgent) (p : Prediction) (ts : String)
    (c : ℚ) (it : String)
    (hconf : p.confidence = some c) (hge : st.prediction_threshold ≤ c)
    (hit : p.issue_type = some it)
    (h1 : it ≠ "resource_exhaustion") (h2 : it ≠ "node_failure")
    (h3 : it ≠ "resource_bottleneck") (h4 : it ≠ "performance_degradation") :
    handle_prediction st p ts =
      (st, { timestamp := ts, prediction := p, actions := [], success := false,
             error := some ("Unknown issue type: " ++ it) })
  ∧ 0 < ("Unknown issue type: " ++ it).length := by
  constructor
  · have hb : handle_prediction_body st p ts =
        (st, Except.error ("Unknown issue type: " ++ it)) := by
      unfold handle_prediction_body
      rw [hconf]
      simp only [dictGet]
      rw [if_neg (not_lt.mpr hge), hit]
      simp only [dictGet]
      rw [if_neg h1, if_neg h2, if_neg h3, if_neg h4]
    exact handle_prediction_of_error st p ts st _ hb
  · have h20 : ("Unknown issue type: ").length = 20 := rfl
    rw [String.length_append, h20]
    omega

/-- Witness for C4 at `unknownTypePred` over a fresh agent. -/
theorem c4_witness :
    handle_prediction initAgent unknownTypePred "t0" =
      (initAgent, { timestamp := "t0", prediction := unknownTypePred, actions := [],
                    success := false,
                    error := some ("Unknown issue type: " ++ "disk_pressure") })
  ∧ 0 < ("Unknown issue type: " ++ "disk_pressure").length :=
  c4_unknown_issue_type initAgent unknownTypePred "t0" 1 "disk_pressure" rfl
    (by norm_num [initAgent]) rfl (by decide) (by decide) (by decide) (by decide)

/-- C5: every exception raised inside the `try` block of `handle_prediction`
is caught: the call returns the `except`-path dictionary (`success = false`,
the exception's message, empty action list) over the state as already
mutated, and the actions appended before the exception stay in the log. -/
theorem c5_exception_contained (st : RemediationAgent) (p : Prediction) (ts : String)
    (st' : RemediationAgent) (e : String)
    (h : handle_prediction_body st p ts = (st', Except.error e)) :
    handle_prediction st p ts =
      (st', { timestamp := ts, prediction := p, actions := [], success := false,
              error := some e })
  ∧ st.action_history <+: st'.action_history := by
  refine ⟨handle_prediction_of_error st p ts st' e h, ?_⟩
  have hb := body_hist st p ts
  rw [h] at hb
  exact hb

/-- Witness for C5: at `exhaustionPred` the record loop raises
`KeyError('success')` after appending the scale record, and the call returns
the caught-exception result over that partially mutated state. -/
theorem c5_witness :
    handle_prediction_body initAgent exhaustionPred "t0" =
      (postExhaustionAgent, Except.error (keyErr "success"))
  ∧ (handle_prediction initAgent exhaustionPred "t0" =
      (postExhaustionAgent,
        { timestamp := "t0", prediction := exhaustionPred, actions := [],
          success := false, error := some (keyErr "success") })
    ∧ initAgent.action_history <+: postExhaustionAgent.action_history) :=
  have hb : handle_prediction_body initAgent exhaustionPred "t0" =
      (postExhaustionAgent, Except.error (keyErr "success")) := by
    norm_num [handle_prediction_body, handle_resource_exhaustion, dispatch_tail,
      record_and_return, record_actions, dictGet, exhaustionPred, initAgent,
      scale_deployment, optimize_resources, postExhaustionAgent, scaleRecordStamped]
  ⟨hb, c5_exception_contained initAgent exhaustionPred "t0" postExhaustionAgent
    (keyErr "success") hb⟩

/-- C6: for the resource-bottleneck prediction with current cpu `"500m"`,
current memory `"512Mi"`, cpu adjustment 1.5 and memory adjustment 1.2, at or
above threshold, the plan builder produces exactly one `optimize_resources`
action whose newly computed requests are `"750m"` and `"614Mi"` (the products
750.0 and 614.4 truncated to integers before re-appending the suffix), and
`handle_prediction` appends exactly that action to the history. -/
theorem c6_bottleneck_quantities (st : RemediationAgent) (ts : String) (c : ℚ)
    (h : st.prediction_threshold ≤ c) :
    handle_resource_bottleneck (bottleneckPred c) ts = Except.ok [bottleneckRecord ts]
  ∧ (bottleneckRecord ts).details =
      optimize_resources "default" "resource-heavy" (some "750m") (some "614Mi") ts
  ∧ (handle_prediction st (bottleneckPred c) ts).1.action_history =
      st.action_history ++ [{ bottleneckRecord ts with timestamp := some ts }] := by
  have h500 := pyFloat_eval (pyReplace "500m" "m" "") false 500 0 (by decide)
  have h512 := pyFloat_eval (pyReplace "512Mi" "Mi" "") false 512 0 (by decide)
  norm_num at h500 h512
  have hcpu : intToStr 750 ++ "m" = "750m" := by decide
  have hmem : intToStr 614 ++ "Mi" = "614Mi" := by decide
  have hplan : handle_resource_bottleneck (bottleneckPred c) ts =
      Except.ok [bottleneckRecord ts] := by
    norm_num [handle_resource_bottleneck, bottleneckPred, bottleneckTarget,
      bottleneckDetails, bottleneckRecord, h500, h512, pyInt, hcpu, hmem,
      optimize_resources]
  refine ⟨hplan, rfl, ?_⟩
  have hne1 : ("resource_bottleneck" = "resource_exhaustion") = False := by decide
  have hne2 : ("resource_bottleneck" = "node_failure") = False := by decide
  have hconf : (bottleneckPred c).confidence = some c := rfl
  have hit : (bottleneckPred c).issue_type = some "resource_bottleneck" := rfl
  norm_num [handle_prediction, handle_prediction_body, dictGet, hconf, hit,
    dispatch_tail, record_and_return, hplan, hne1, hne2, record_actions,
    not_lt.mpr h, bottleneckRecord]

/-- Witness for C6 at confidence 0.9 over a fresh agent (threshold 0.8). -/
theorem c6_witness :
    initAgent.prediction_threshold ≤ (9/10 : ℚ)
  ∧ (handle_resource_bottleneck (bottleneckPred (9/10)) "t0" =
        Except.ok [bottleneckRecord "t0"]
    ∧ (bottleneckRecord "t0").details =
        optimize_resources "default" "resource-heavy" (some "750m") (some "614Mi") "t0"
    ∧ (handle_prediction initAgent (bottleneckPred (9/10)) "t0").1.action_history =
        initAgent.action_history ++ [{ bottleneckRecord "t0" with timestamp := some "t0" }]) :=
  ⟨by norm_num [initAgent],
   c6_bottleneck_quantities initAgent "t0" (9/10) (by norm_num [initAgent])⟩

/-- C9: `set_prediction_threshold` rejects every value outside `[0, 1]` with
the `ValueError` and an unchanged state, and accepts every value in the
closed interval — endpoints included — as the new threshold. -/
theorem c9_threshold_validation (st : RemediationAgent) (t : ℚ) :
    ((t < 0 ∨ 1 < t) →
      set_prediction_threshold st t =
        (st, Except.error "Threshold must be between 0 and 1"))
  ∧ (0 ≤ t → t ≤ 1 →
      set_prediction_threshold st t =
        ({ st with prediction_threshold := t }, Except.ok ())) := by
  constructor
  · intro ht
    unfold set_prediction_threshold
    rw [if_neg]
    rcases ht with ht | ht
    · exact fun hc => absurd hc.1 (not_le.mpr ht)
    · exact fun hc => absurd hc.2 (not_le.mpr ht)
  · intro h0 h1
    unfold set_prediction_threshold
    rw [if_pos ⟨h0, h1⟩]

/-- Witness for C9: 2 is rejected without mutation; the endpoints 1 and 0 are
accepted and stored. -/
theorem c9_witness :
    set_prediction_threshold initAgent 2 =
      (initAgent, Except.error "Threshold must be between 0 and 1")
  ∧ set_prediction_threshold initAgent 1 =
      ({ initAgent with prediction_threshold := 1 }, Except.ok ())
  ∧ set_prediction_threshold initAgent 0 =
      ({ initAgent with prediction_threshold := 0 }, Except.ok ()) :=
  ⟨(c9_threshold_validation initAgent 2).1 (Or.inr (by norm_num)),
   (c9_threshold_validation initAgent 1).2 (by norm_num) le_rfl,
   (c9_threshold_validation initAgent 0).2 le_rfl (by norm_num)⟩

/-- C7 (code evaluation at the failing input): the metrics read path is
broken.  Recording works through the public `.labels(...)` API — after two
successful and one failed `record_action` of one type the counter map does
hold those counts — but every reader trips on a private attribute its
labelled prometheus object does not have, so `_calculate_success_rate`
returns 0.0 via its `except` on every state (never the claimed N/(N+M) =
2/3), and `get_effectiveness_metrics` returns the empty dictionary, carrying
no `actions.success_rate` at all. -/
theorem c7_success_rate_attribute_error (m : MetricsCollector) :
    m.calculate_success_rate = 0
  ∧ m.get_metrics = none
  ∧ ([((true : Bool), (0 : ℚ)), (true, 0), (false, 0)].foldl
        (fun acc sd => acc.record_action "resource_scaling" sd.1 sd.2)
        ({} : MetricsCollector)).action_counter =
      [(("resource_scaling", "True"), 2), (("resource_scaling", "False"), 1)]
  ∧ get_effectiveness_metrics
      { initAgent with
        metrics := [((true : Bool), (0 : ℚ)), (true, 0), (false, 0)].foldl
          (fun acc sd => acc.record_action "resource_scaling" sd.1 sd.2)
          ({} : MetricsCollector) } = none
  ∧ ([((true : Bool), (0 : ℚ)), (true, 0), (false, 0)].foldl
        (fun acc sd => acc.record_action "resource_scaling" sd.1 sd.2)
        ({} : MetricsCollector)).calculate_success_rate ≠ 2 / 3 := by
  refine ⟨rfl, rfl, ?_, rfl, ?_⟩
  · simp [List.foldl, MetricsCollector.record_action, incKey, boolStr]
  · have h : ∀ mc : MetricsCollector, mc.calculate_success_rate = 0 := fun _ => rfl
    rw [h]
    norm_num

/-- The record loop stamps timestamps but never assigns `id`: if neither the
planned records nor the existing history carry an `id`, neither does the
resulting history. -/
theorem record_actions_ids (aty : Option String) (ts : String) (l : List ActionRecord) :
    ∀ st : RemediationAgent, (∀ a ∈ l, a.id = none) →
      (∀ a ∈ st.action_history, a.id = none) →
      ∀ a ∈ (record_actions st aty ts l).1.action_history, a.id = none := by
  induction l with
  | nil => intro st _ hst; simpa [record_actions] using hst
  | cons a rest ih =>
    intro st hl hst
    have ha : a.id = none := hl a (List.mem_cons_self a rest)
    have hst₁ : ∀ b ∈ st.action_history ++ [{ a with timestamp := some ts }], b.id = none := by
      intro b hb
      rcases List.mem_append.mp hb with hb | hb
      · exact hst b hb
      · rcases List.mem_singleton.mp hb with rfl
        exact ha
    unfold record_actions
    cases aty with
    | none => simpa using hst₁
    | some aty' =>
      cases hs : a.success with
      | none => simpa [hs] using hst₁
      | some s =>
        simp only [hs]
        rw [hs] at hst₁
        exact ih _ (fun b hb => hl b (List.mem_cons_of_mem a hb)) hst₁

/-- The record section never assigns `id` fields. -/
theorem record_and_return_ids (st : RemediationAgent) (p : Prediction) (ts it : String)
    (actions : List ActionRecord) (aty : Option String)
    (hl : ∀ a ∈ actions, a.id = none)
    (hst : ∀ a ∈ st.action_history, a.id = none) :
    ∀ a ∈ (record_and_return st p ts it actions aty).1.action_history, a.id = none := by
  unfold record_and_return
  have hrec := record_actions_ids aty ts actions st hl hst
  rcases h : record_actions st aty ts actions with ⟨st₂, res⟩
  rw [h] at hrec
  cases res with
  | error e => simpa using hrec
  | ok stamped => by_cases hnil : actions = [] <;> simpa [hnil] using hrec

/-- A dispatch branch never assigns `id` fields, whatever its plan builder
planned (assuming the builder plans only `id`-free records). -/
theorem dispatch_tail_ids (st : RemediationAgent) (p : Prediction) (ts it : String)
    (plan : Except String (List ActionRecord)) (aty : Option String)
    (hplan : ∀ acts, plan = Except.ok acts → ∀ a ∈ acts, a.id = none)
    (hst : ∀ a ∈ st.action_history, a.id = none) :
    ∀ a ∈ (dispatch_tail st p ts it plan aty).1.action_history, a.id = none := by
  unfold dispatch_tail
  cases plan with
  | error e => simpa using hst
  | ok acts => exact record_and_return_ids st p ts it acts aty (hplan acts rfl) hst

/-- The `try` block never assigns `id` fields. -/
theorem body_ids (st : RemediationAgent) (p : Prediction) (ts : String)
    (hst : ∀ a ∈ st.action_history, a.id = none) :
    ∀ a ∈ (handle_prediction_body st p ts).1.action_history, a.id = none := by
  unfold handle_prediction_body
  cases hconf : p.confidence with
  | none => simpa [dictGet] using hst
  | some c =>
    simp only [dictGet]
    by_cases hlt : c < st.prediction_threshold
    · rw [if_pos hlt]; exact hst
    · rw [if_neg hlt]
      cases hit : p.issue_type with
      | none => simpa [dictGet] using hst
      | some it =>
        simp only [dictGet]
        by_cases h1 : it = "resource_exhaustion"
        · rw [if_pos h1]
          exact dispatch_tail_ids _ _ _ _ _ _
            (fun acts hacts a ha => (exhaustion_bare p ts acts hacts a ha).2) hst
        rw [if_neg h1]
        by_cases h2 : it = "node_failure"
        · rw [if_pos h2]
          exact dispatch_tail_ids _ _ _ _ _ _
            (fun acts hacts a ha => (node_failure_bare p ts acts hacts a ha).2) hst
        rw [if_neg h2]
        by_cases h3 : it = "resource_bottleneck"
        · rw [if_pos h3]
          exact dispatch_tail_ids _ _ _ _ _ _
            (fun acts hacts a ha => (bottleneck_bare p ts acts hacts a ha).2) hst
        rw [if_neg h3]
        by_cases h4 : it = "performance_degradation"
        · rw [if_pos h4]
          exact dispatch_tail_ids _ _ _ _ _ _
            (fun acts hacts a ha => (degradation_bare p ts acts hacts a ha).2) hst
        rw [if_neg h4]
        exact hst

/-- The `handle_prediction` preserves the absence of `id` fields in the log. -/
theorem handle_prediction_ids (st : RemediationAgent) (p : Prediction) (ts : String)
    (hst : noIds st) : noIds (handle_prediction st p ts).1 := by
  have hb := body_ids st p ts hst
  rcases h : handle_prediction_body st p ts with ⟨st', res⟩
  rw [h] at hb
  cases res with
  | ok r => rw [handle_prediction_of_ok st p ts st' r h]; exact hb
  | error e => rw [handle_prediction_of_error st p ts st' e h]; exact hb

/-- Every state reachable through `handle_prediction` calls has an `id`-free
action log. -/
theorem reachable_noIds (st : RemediationAgent) (h : Reachable st) : noIds st := by
  induction h with
  | init => intro a ha; cases ha
  | step st p ts _ ih => exact handle_prediction_ids st p ts ih

/-- The false-positive scan finds nothing in an `id`-free log and touches
neither the log nor the collector. -/
theorem mark_fp_scan_notfound (m : MetricsCollector) (aid aty : String)
    (hist : List ActionRecord) (h : ∀ a ∈ hist, a.id = none) :
    mark_fp_scan m aid aty hist = (m, hist, false) := by
  induction hist with
  | nil => rfl
  | cons a rest ih =>
    have ha : a.id = none := h a (List.mem_cons_self a rest)
    unfold mark_fp_scan
    rw [if_neg (by simp [ha])]
    rw [ih (fun b hb => h b (List.mem_cons_of_mem a hb))]

/-- C8: `handle_prediction` never assigns an `id` to the records it appends,
so in every state reachable through `handle_prediction` calls the log is
`id`-free and `mark_false_positive` (with any non-null id) returns `false`
and mutates nothing — neither a `false_positive` flag nor the false-positive
counter. -/
theorem c8_no_ids_mark_false_positive (st : RemediationAgent) (h : Reachable st)
    (aid aty : String) :
    noIds st ∧ mark_false_positive st aid aty = (st, false) := by
  have hids := reachable_noIds st h
  refine ⟨hids, ?_⟩
  unfold mark_false_positive
  rw [mark_fp_scan_notfound st.metrics aid aty st.action_history hids]

/-- Witness for C8 on the state after one `handle_prediction` call (whose
history holds the scale record appended before the `KeyError`). -/
theorem c8_witness :
    noIds (handle_prediction initAgent exhaustionPred "t0").1
  ∧ mark_false_positive (handle_prediction initAgent exhaustionPred "t0").1
      "a-1" "scale_deployment" =
    ((handle_prediction initAgent exhaustionPred "t0").1, false) :=
  c8_no_ids_mark_false_positive _
    (Reachable.step initAgent exhaustionPred "t0" Reachable.init) "a-1" "scale_deployment"

/-- C10: the unit-parser round trip.  Parsing `"500m"`, re-serializing with
the millicore formatting helper and parsing again is the identity, and the
value is exactly 500 millicores (0.5 cores); the analogous round trips hold
for the `Mi` and `Gi` memory suffixes through the mebibyte formatting helper
(the `Gi` quantity re-serializes as an equivalent number of `Mi`). -/
theorem c10_unit_round_trip :
    parse_cpu_value (formatMillicores (parse_cpu_value "500m")) = parse_cpu_value "500m"
  ∧ parse_cpu_value "500m" = 500 / 1000
  ∧ parse_memory_value (formatMebibytes (parse_memory_value "512Mi")) =
      parse_memory_value "512Mi"
  ∧ parse_memory_value "512Mi" = 512 * 1024 * 1024
  ∧ parse_memory_value (formatMebibytes (parse_memory_value "2Gi")) =
      parse_memory_value "2Gi"
  ∧ parse_memory_value "2Gi" = 2 * 1024 * 1024 * 1024 := by
  have hf500 := pyFloat_eval (pyDropRight "500m" 1) false 500 0 (by decide)
  norm_num at hf500
  have e1 : parse_cpu_value "500m" = 500 / 1000 := by
    have hn : pyEndsWith "500m" "n" = false := by decide
    have hu : pyEndsWith "500m" "u" = false := by decide
    have hm : pyEndsWith "500m" "m" = true := by decide
    norm_num [parse_cpu_value, hn, hu, hm, hf500]
  have e2 : formatMillicores ((500 : ℚ) / 1000) = "500m" := by
    have hi : pyInt ((500 : ℚ) / 1000 * 1000) = 500 := by norm_num [pyInt]
    rw [formatMillicores, hi]
    decide
  have e3 : parse_memory_value "512Mi" = 512 * 1024 * 1024 := by
    have hf := pyFloat_eval (pyDropRight "512Mi" 2) false 512 0 (by decide)
    norm_num at hf
    have hk : pyEndsWith "512Mi" "Ki" = false := by decide
    have hm : pyEndsWith "512Mi" "Mi" = true := by decide
    norm_num [parse_memory_value, hk, hm, hf]
  have e4 : formatMebibytes ((512 : ℚ) * 1024 * 1024) = "512Mi" := by
    have hi : pyInt ((512 : ℚ) * 1024 * 1024 / (1024 * 1024)) = 512 := by norm_num [pyInt]
    rw [formatMebibytes, hi]
    decide
  have e5 : parse_memory_value "2Gi" = 2 * 1024 * 1024 * 1024 := by
    have hf := pyFloat_eval (pyDropRight "2Gi" 2) false 2 0 (by decide)
    norm_num at hf
    have hk : pyEndsWith "2Gi" "Ki" = false := by decide
    have hm : pyEndsWith "2Gi" "Mi" = false := by decide
    have hg : pyEndsWith "2Gi" "Gi" = true := by decide
    norm_num [parse_memory_value, hk, hm, hg, hf]
  have e6 : formatMebibytes ((2 : ℚ) * 1024 * 1024 * 1024) = "2048Mi" := by
    have hi : pyInt ((2 : ℚ) * 1024 * 1024 * 1024 / (1024 * 1024)) = 2048 := by
      norm_num [pyInt]
    rw [formatMebibytes, hi]
    decide
  have e7 : parse_memory_value "2048Mi" = 2048 * 1024 * 1024 := by
    have hf := pyFloat_eval (pyDropRight "2048Mi" 2) false 2048 0 (by decide)
    norm_num at hf
    have hk : pyEndsWith "2048Mi" "Ki" = false := by decide
    have hm : pyEndsWith "2048Mi" "Mi" = true := by decide
    norm_num [parse_memory_value, hk, hm, hf]
  refine ⟨?_, e1, ?_, e3, ?_, e5⟩
  · rw [e1, e2, e1]
  · rw [e3, e4, e3]
  · rw [e5, e6, e7]
    norm_num
